import Mathlib

/-!
Verification of the guickie Minecraft status scanner (src/main.rs) against its
natural-language specification. The Rust code is shallowly embedded below:
bytes are Nat values below 256, byte buffers are List Nat, u32 arithmetic is
Nat arithmetic with explicit reduction modulo 2 ^ 32 at the cast sites, and
fallible or panicking control flow is made explicit with Option and dedicated
outcome types.
-/

/-- Embeds unsigned_varint::decode::is_last: a varint byte is the last byte of
its group when its continuation bit (0x80) is clear. -/
def is_last (b : Nat) : Bool := b &&& 128 == 0

/-- Loop body of unsigned_varint::encode::u32. The Rust encoder iterates over
a five byte scratch buffer, emitting seven data bits per byte with the
continuation bit set on every byte except the final one; the fuel argument
models the five available buffer slots (never exhausted for values of u32). -/
def encode_u32_loop (n : Nat) : Nat → List Nat
  | 0 => []
  | fuel + 1 => if n < 128 then [n] else (n % 128 + 128) :: encode_u32_loop (n / 128) fuel

/-- Embeds unsigned_varint::encode::u32 for a u32 value (a Nat below 2 ^ 32). -/
def encode_u32 (n : Nat) : List Nat := encode_u32_loop n 5

/-- Loop of unsigned_varint::decode::u32: byte i contributes its low seven bits
shifted left by 7 * i (the shift wraps modulo 2 ^ 32 as in Rust u32 shl, and
because the contributions of distinct bytes occupy disjoint bit ranges the
bitwise or of the accumulator is written as addition); decoding returns the
value and the number of bytes consumed when a byte with a clear continuation
bit is reached, and fails on buffer exhaustion or when a fifth byte still has
the continuation bit set (none covers both Insufficient and Overflow). -/
def decode_u32_core : List Nat → Nat → Nat → Option (Nat × Nat)
  | [], _, _ => none
  | b :: rest, i, acc =>
    if is_last b then some (acc + b % 128 * 2 ^ (7 * i) % 2 ^ 32, i + 1)
    else if i = 4 then none
    else decode_u32_core rest (i + 1) (acc + b % 128 * 2 ^ (7 * i) % 2 ^ 32)

/-- Embeds unsigned_varint::decode::u32, returning the decoded value together
with the number of bytes consumed. -/
def decode_u32 (buf : List Nat) : Option (Nat × Nat) := decode_u32_core buf 0 0

/-- Embeds BytesMutExt::put_vi: append the varint encoding of a u32 value. -/
def put_vi (buf : List Nat) (value : Nat) : List Nat := buf ++ encode_u32 value

/-- Embeds BytesMutExt::put_str: append the varint encoded byte length of the
string (value.len() as u32, hence the reduction modulo 2 ^ 32) followed by the
string bytes. -/
def put_str (buf : List Nat) (value : List Nat) : List Nat :=
  put_vi buf (value.length % 2 ^ 32) ++ value

/-- Embeds BufMut::put_u16: append a u16 in big endian byte order. -/
def put_u16 (buf : List Nat) (value : Nat) : List Nat :=
  buf ++ [value / 256 % 256, value % 256]

/-- Embeds the handshake_data buffer of perform_scan: protocol version 760,
the host string with its length, the port in big endian, next state 1. -/
def handshake_data (ip : List Nat) (prt : Nat) : List Nat :=
  put_vi (put_u16 (put_str (put_vi [] 760) ip) prt) 1

/-- Embeds the packet assembly pattern of perform_scan: a varint length field
of handshake_data.len() as u32 + 1 (the extra 1 is the single byte taken by
the varint type id 0x00), then the varint type id 0x00, then the payload. -/
def build_packet (payload : List Nat) : List Nat :=
  put_vi (put_vi [] ((payload.length % 2 ^ 32 + 1) % 2 ^ 32)) 0 ++ payload

/-- The full Handshake packet perform_scan writes for an endpoint. -/
def handshake_packet (ip : List Nat) (prt : Nat) : List Nat :=
  build_packet (handshake_data ip prt)

/-- Embeds the StatusRequest packet of perform_scan: put_vi(1) then put_vi(0). -/
def status_request : List Nat := put_vi (put_vi [] 1) 0

/-- Embeds the inner stripping loop of perform_scan. After the cursor has
advanced past cursor bytes, the Rust expression response[count] reads the byte
at absolute offset cursor + count (count is the outer field counter, not 0);
while that byte has its continuation bit set the cursor advances, then it
advances once more. A none result models the Rust index panic raised when
cursor + count falls outside the buffer. The fuel argument bounds the loop by
the buffer length; it is never exhausted because every iteration requires an
in-bounds index. -/
def skip_varint (buf : List Nat) (count : Nat) : Nat → Nat → Option Nat
  | 0, _ => none
  | fuel + 1, cursor =>
    match buf[cursor + count]? with
    | none => none
    | some b => if is_last b then some (cursor + 1) else skip_varint buf count fuel (cursor + 1)

/-- Embeds the frame stripping loop of perform_scan (count = 0, 1, 2), giving
the final cursor offset into the response buffer, or none for an index panic. -/
def strip_frames (buf : List Nat) : Option Nat :=
  match skip_varint buf 0 (buf.length + 1) 0 with
  | none => none
  | some c1 =>
    match skip_varint buf 1 (buf.length + 1) c1 with
    | none => none
    | some c2 => skip_varint buf 2 (buf.length + 1) c2

/-- Stripping step as the specification words it, for comparison with the
code: advance the cursor byte by byte until a byte with a clear continuation
bit is observed at the cursor, then advance one byte past it. -/
def skip_varint_spec (buf : List Nat) : Nat → Nat → Option Nat
  | 0, _ => none
  | fuel + 1, cursor =>
    match buf[cursor]? with
    | none => none
    | some b => if is_last b then some (cursor + 1) else skip_varint_spec buf fuel (cursor + 1)

/-- Frame stripping as the specification describes it: three varint fields
are skipped, each by scanning from the current cursor position. -/
def strip_frames_spec (buf : List Nat) : Option Nat :=
  match skip_varint_spec buf (buf.length + 1) 0 with
  | none => none
  | some c1 =>
    match skip_varint_spec buf (buf.length + 1) c1 with
    | none => none
    | some c2 => skip_varint_spec buf (buf.length + 1) c2

/-- Embeds struct MOTDDescription. -/
structure MOTDDescription where
  text : String
deriving DecidableEq

/-- Embeds struct MOTDPlayer. -/
structure MOTDPlayer where
  name : String
  id : String
deriving DecidableEq

/-- Embeds struct MOTDPlayers (max and online are u32 values). -/
structure MOTDPlayers where
  max : Nat
  online : Nat
  sample : Option (List MOTDPlayer)
deriving DecidableEq

/-- Embeds struct MOTDVersion (protocol is a u32 value). -/
structure MOTDVersion where
  name : String
  protocol : Nat
deriving DecidableEq

/-- Embeds struct MOTD; the favicon string is kept as its UTF-8 byte list
because the persister slices it at a byte index. -/
structure MOTD where
  description : MOTDDescription
  players : MOTDPlayers
  version : MOTDVersion
  favicon : Option (List Nat)
deriving DecidableEq

/-- Embeds the rejection condition of perform_scan: the probe is dropped when
players.max differs from 50, or the favicon is absent, or version.protocol
differs from 760. -/
def reject_filter (m : MOTD) : Bool :=
  m.players.max != 50 || m.favicon.isNone || m.version.protocol != 760

/-- Value of one base64 symbol in the standard alphabet, none for any byte
outside the alphabet. -/
def b64_val (c : Nat) : Option Nat :=
  if 65 ≤ c ∧ c ≤ 90 then some (c - 65)
  else if 97 ≤ c ∧ c ≤ 122 then some (c - 97 + 26)
  else if 48 ≤ c ∧ c ≤ 57 then some (c - 48 + 52)
  else if c = 43 then some 62
  else if c = 47 then some 63
  else none

/-- Models base64::decode (standard alphabet with padding): input is consumed
in groups of four symbols, the character 61 is the padding sign =, padding is
only accepted at the end, and any other shape or symbol is an error. -/
def base64_decode : List Nat → Option (List Nat)
  | [] => some []
  | a :: b :: c :: d :: rest =>
    match b64_val a, b64_val b with
    | some va, some vb =>
      if c = 61 then
        if d = 61 ∧ rest = [] then some [va * 4 + vb / 16] else none
      else
        match b64_val c with
        | some vc =>
          if d = 61 then
            if rest = [] then some [va * 4 + vb / 16, vb % 16 * 16 + vc / 4] else none
          else
            match b64_val d with
            | some vd =>
              match base64_decode rest with
              | some tl =>
                some ((va * 4 + vb / 16) :: (vb % 16 * 16 + vc / 4) :: (vc % 4 * 64 + vd) :: tl)
              | none => none
            | none => none
        | none => none
    | _, _ => none
  | _ => none

/-- Content of one output file: the pretty printed JSON document of a payload,
or the binary image decoded from the favicon. -/
inductive FileData
  | jsonPretty (m : MOTD)
  | binImage (img : List Nat)
deriving DecidableEq

/-- Outcome of the validate and persist phase of perform_scan, recording the
files written before the probe ended: rejectedOk is the silent early return of
a filtered payload, completed is a fully persisted probe, errorAfter is the
propagated base64 decode error, panicked is the index panic raised by the
slice favicon[22..]. -/
inductive PersistOutcome
  | rejectedOk
  | completed (files : List (List Char × FileData))
  | errorAfter (files : List (List Char × FileData))
  | panicked (files : List (List Char × FileData))
deriving DecidableEq

/-- Path of the JSON artifact, from format data/{ip}.json in perform_scan. -/
def json_file_name (ip : List Char) : List Char :=
  "data/".toList ++ ip ++ ".json".toList

/-- Path of the image artifact, from format data/{ip}.png in perform_scan. -/
def png_file_name (ip : List Char) : List Char :=
  "data/".toList ++ ip ++ ".png".toList

/-- JSON artifact path as a function of the whole endpoint: perform_scan
receives (ip, port) but names its output files from ip alone. -/
def scan_json_file (ep : List Char × Nat) : List Char := json_file_name ep.1

/-- Embeds the tail of perform_scan after JSON decoding: apply the rejection
filter (silent Ok with no file written), otherwise write the JSON document,
then slice the favicon past its 22 byte data URI scheme (an index panic when
the favicon holds fewer than 22 bytes), base64 decode the remainder (a
propagated error on failure) and write the image file. -/
def validate_and_persist (ip : List Char) (m : MOTD) : PersistOutcome :=
  if reject_filter m then PersistOutcome.rejectedOk
  else
    match m.favicon with
    | some fav =>
      if 22 ≤ fav.length then
        match base64_decode (fav.drop 22) with
        | some img =>
          PersistOutcome.completed
            [(json_file_name ip, FileData.jsonPretty m), (png_file_name ip, FileData.binImage img)]
        | none => PersistOutcome.errorAfter [(json_file_name ip, FileData.jsonPretty m)]
      else PersistOutcome.panicked [(json_file_name ip, FileData.jsonPretty m)]
    | none => PersistOutcome.completed [(json_file_name ip, FileData.jsonPretty m)]

/-- Outcome of one read attempt in the response loop of perform_scan: a
successful read delivering some bytes, a transport error from stream.read, or
an elapsed 500 ms timeout. -/
inductive ReadEvent
  | recvOk (data : List Nat)
  | recvErr
  | timedOut
deriving DecidableEq

/-- Per endpoint failure kinds named by the specification. -/
inductive ProbeError
  | connectErr
  | readErr
  | decodeErr
  | persistErr
deriving DecidableEq

/-- Embeds the response read loop of perform_scan: a timeout breaks the while
let, a zero byte read breaks, a read error also just breaks (the Err arm of
the match), and in every case the accumulated bytes are kept. -/
def read_loop : List ReadEvent → List Nat → List Nat
  | [], acc => acc
  | ReadEvent.recvOk d :: rest, acc => if d.length = 0 then acc else read_loop rest (acc ++ d)
  | ReadEvent.recvErr :: _, acc => acc
  | ReadEvent.timedOut :: _, acc => acc

/-- Result of the read phase as seen by the rest of perform_scan: the loop has
no failing path, so the phase always returns the accumulated buffer. -/
def read_phase (events : List ReadEvent) : Except ProbeError (List Nat) :=
  Except.ok (read_loop events [])

/-- Exit behavior of the whole process. -/
inductive ProcessExit
  | exitZero
  | abortedPanic
deriving DecidableEq

/-- Embeds main: every per endpoint future evaluates
perform_scan(..).await.unwrap(), so any Err probe result panics inside the
joined future set and aborts the process; only an all-Ok run reaches the final
Ok(()) of main. -/
def main_outcome (results : List (Except ProbeError Unit)) : ProcessExit :=
  if results.any (fun r => match r with | Except.error _ => true | Except.ok _ => false)
  then ProcessExit.abortedPanic
  else ProcessExit.exitZero

/-- Fixture: a payload passing the filter with an empty favicon string. -/
def motd_empty_favicon : MOTD :=
  { description := ⟨"A"⟩
    players := ⟨50, 3, none⟩
    version := ⟨"1.19.2", 760⟩
    favicon := some [] }

/-- Fixture: a payload rejected by the player cap filter (players.max = 20). -/
def motd_low_cap : MOTD :=
  { description := ⟨"A"⟩
    players := ⟨20, 3, none⟩
    version := ⟨"1.19.2", 760⟩
    favicon := some [100, 97, 116] }

/-- Fixture: an accepted payload whose favicon holds fewer than 22 bytes. -/
def motd_short_favicon : MOTD :=
  { description := ⟨"A"⟩
    players := ⟨50, 1, none⟩
    version := ⟨"1.19.2", 760⟩
    favicon := some [100, 97, 116] }

/-- Bytes below 128 have a clear continuation bit. -/
theorem is_last_true_of_lt {b : Nat} (h : b < 128) : is_last b = true := by
  have h7 : b.testBit 7 = false := Nat.testBit_lt_two_pow (by omega)
  simp [is_last]
  calc b &&& 128 = b &&& 2 ^ 7 := by norm_num
    _ = (b.testBit 7).toNat * 2 ^ 7 := Nat.and_two_pow b 7
    _ = 0 := by rw [h7]; rfl

/-- Bytes of the form r + 128 with r below 128 have a set continuation bit. -/
theorem is_last_false_of_cont {r : Nat} (h : r < 128) : is_last (r + 128) = false := by
  have h7 : (r + 128).testBit 7 = true := by
    rw [Nat.testBit_to_div_mod]
    have hd : (r + 128) / 2 ^ 7 = 1 := by norm_num; omega
    rw [hd]
    rfl
  have hc : (r + 128) &&& 128 = 128 := by
    calc (r + 128) &&& 128 = (r + 128) &&& 2 ^ 7 := by norm_num
      _ = ((r + 128).testBit 7).toNat * 2 ^ 7 := Nat.and_two_pow (r + 128) 7
      _ = 128 := by rw [h7]; rfl
  simp [is_last, hc]

/-- Core correctness of the varint codec: decoding an encoder output embedded
at byte position i of a larger buffer, with partial accumulator acc, yields
the accumulated value and the exact byte count of the encoding. -/
theorem decode_encode_core (fuel : Nat) :
    ∀ (v i acc : Nat) (rest : List Nat),
      v < 128 ^ fuel →
      acc + v * 2 ^ (7 * i) < 2 ^ 32 →
      i + fuel ≤ 5 →
      1 ≤ fuel →
      decode_u32_core (encode_u32_loop v fuel ++ rest) i acc =
        some (acc + v * 2 ^ (7 * i), i + (encode_u32_loop v fuel).length) := by
  induction fuel with
  | zero => intro v i acc rest _ _ _ h4; omega
  | succ f ih =>
    intro v i acc rest h1 h2 h3 _
    have hterm : v * 2 ^ (7 * i) < 2 ^ 32 := by omega
    by_cases hv : v < 128
    · have he : encode_u32_loop v (f + 1) = [v] := by simp [encode_u32_loop, hv]
      rw [he]
      simp only [List.cons_append, List.nil_append, decode_u32_core,
        is_last_true_of_lt hv, if_true]
      rw [Nat.mod_eq_of_lt hv, Nat.mod_eq_of_lt hterm]
      simp
    · have he : encode_u32_loop v (f + 1) = (v % 128 + 128) :: encode_u32_loop (v / 128) f := by
        simp [encode_u32_loop, hv]
      have hf : 1 ≤ f := by
        rcases Nat.eq_zero_or_pos f with h0 | h0
        · subst h0; simp at h1; omega
        · exact h0
      have hmod : v % 128 < 128 := Nat.mod_lt v (by omega)
      have hi4 : ¬ i = 4 := by omega
      rw [he]
      simp only [List.cons_append, decode_u32_core, is_last_false_of_cont hmod,
        Bool.false_eq_true, if_false, hi4, ite_false]
      have hb : (v % 128 + 128) % 128 = v % 128 := by omega
      rw [hb]
      have hmodterm : v % 128 * 2 ^ (7 * i) < 2 ^ 32 := by
        have : v % 128 * 2 ^ (7 * i) ≤ v * 2 ^ (7 * i) :=
          Nat.mul_le_mul_right _ (Nat.mod_le v 128)
        omega
      rw [Nat.mod_eq_of_lt hmodterm]
      have hpow : 2 ^ (7 * (i + 1)) = 2 ^ (7 * i) * 128 := by
        have h7 : 7 * (i + 1) = 7 * i + 7 := by ring
        rw [h7, pow_add]; norm_num
      have hkey : acc + v % 128 * 2 ^ (7 * i) + v / 128 * 2 ^ (7 * (i + 1)) =
          acc + v * 2 ^ (7 * i) := by
        rw [hpow]
        have hsplit : v % 128 + 128 * (v / 128) = v := Nat.mod_add_div v 128
        calc acc + v % 128 * 2 ^ (7 * i) + v / 128 * (2 ^ (7 * i) * 128) =
            acc + (v % 128 + 128 * (v / 128)) * 2 ^ (7 * i) := by ring
          _ = acc + v * 2 ^ (7 * i) := by rw [hsplit]
      have hdiv : v / 128 < 128 ^ f := by
        apply Nat.div_lt_of_lt_mul
        calc v < 128 ^ (f + 1) := h1
          _ = 128 * 128 ^ f := by ring
      have hrec := ih (v / 128) (i + 1) (acc + v % 128 * 2 ^ (7 * i)) rest hdiv
        (by rw [hkey]; exact h2) (by omega) hf
      rw [hkey] at hrec
      have hlen : i + 1 + (encode_u32_loop (v / 128) f).length =
          i + ((v % 128 + 128) :: encode_u32_loop (v / 128) f).length := by
        simp only [List.length_cons]; omega
      rw [hlen] at hrec
      exact hrec

/-- Decoding recovers an encoder output placed at the front of any buffer,
consuming exactly its length. -/
theorem decode_u32_encode_append (v : Nat) (rest : List Nat) (h : v < 2 ^ 32) :
    decode_u32 (encode_u32 v ++ rest) = some (v, (encode_u32 v).length) := by
  have h5 : v < 128 ^ 5 := by
    have : (2:Nat) ^ 32 ≤ 128 ^ 5 := by norm_num
    omega
  have hc := decode_encode_core 5 v 0 0 rest h5 (by simpa using h) (by omega) (by omega)
  simpa [decode_u32, encode_u32] using hc

/-- C4. Varint round-trip and non-malleability: decoding the varint encoding
of any u32 value v yields v together with the byte length of the encoding,
the encoder assigns each representable u32 value exactly one encoding (the
encoder is a function and is injective on u32 values), and the encoding of 0
is the single byte 0x00. -/
theorem varint_roundtrip_unique_encoding : ∀ v : Nat, v < 2 ^ 32 →
    decode_u32 (encode_u32 v) = some (v, (encode_u32 v).length) ∧
    (∀ w : Nat, w < 2 ^ 32 → encode_u32 w = encode_u32 v → w = v) ∧
    encode_u32 0 = [0] := by
  intro v hv
  refine ⟨?_, ?_, rfl⟩
  · have := decode_u32_encode_append v [] hv
    simpa using this
  · intro w hw hew
    have dv := decode_u32_encode_append v [] hv
    have dw := decode_u32_encode_append w [] hw
    rw [hew] at dw
    rw [dv] at dw
    simp only [Option.some.injEq, Prod.mk.injEq] at dw
    exact dw.1.symm

/-- Witness for C4 at the concrete value 300. -/
theorem varint_roundtrip_unique_encoding_witness :
    decode_u32 (encode_u32 300) = some (300, (encode_u32 300).length) :=
  (varint_roundtrip_unique_encoding 300 (by norm_num)).1

/-- C5. Packet length invariant: a packet built by the code for a payload of
length n carries a length field decoding to exactly n + k where k is the byte
length of the varint encoded type id 0x00 (k = 1), and the StatusRequest
packet is the two bytes 0x01 0x00 whose remaining length decodes to 1,
covering only the type id. -/
theorem packet_length_invariant : ∀ payload : List Nat, payload.length + 1 < 2 ^ 32 →
    decode_u32 (build_packet payload) =
      some (payload.length + (encode_u32 0).length, (encode_u32 (payload.length + 1)).length) ∧
    status_request = [1, 0] ∧
    decode_u32 status_request = some (1, 1) := by
  intro p h
  refine ⟨?_, rfl, rfl⟩
  have e32 : (2:Nat) ^ 32 = 4294967296 := by norm_num
  have hL : (p.length % 2 ^ 32 + 1) % 2 ^ 32 = p.length + 1 := by
    rw [e32] at h ⊢
    omega
  have hk : (encode_u32 0).length = 1 := rfl
  calc decode_u32 (build_packet p)
      = decode_u32 (encode_u32 (p.length + 1) ++ (encode_u32 0 ++ p)) := by
        unfold build_packet put_vi
        rw [hL]
        simp only [List.nil_append, List.append_assoc]
    _ = some (p.length + 1, (encode_u32 (p.length + 1)).length) :=
        decode_u32_encode_append (p.length + 1) (encode_u32 0 ++ p) h
    _ = some (p.length + (encode_u32 0).length, (encode_u32 (p.length + 1)).length) := by
        rw [hk]

/-- Witness for C5 at a concrete three byte payload. -/
theorem packet_length_invariant_witness :
    decode_u32 (build_packet [9, 9, 9]) =
      some (3 + (encode_u32 0).length, (encode_u32 4).length) :=
  (packet_length_invariant [9, 9, 9] (by norm_num)).1

/-- C6. Handshake packet layout: the packet written for an endpoint is, in
order, a varint length field, the varint type id 0x00, the varint protocol
version 760, the host as a varint length prefixed string, the port as a big
endian uint16, and the varint next state 1. -/
theorem handshake_packet_layout : ∀ (ip : List Nat) (prt : Nat),
    ip.length < 2 ^ 32 → (handshake_data ip prt).length + 1 < 2 ^ 32 → prt < 65536 →
    handshake_packet ip prt =
      encode_u32 ((handshake_data ip prt).length + 1) ++ encode_u32 0 ++ encode_u32 760 ++
        encode_u32 ip.length ++ ip ++ [prt / 256, prt % 256] ++ encode_u32 1 := by
  intro ip prt h1 h2 h3
  have e32 : (2:Nat) ^ 32 = 4294967296 := by norm_num
  have hL : ((handshake_data ip prt).length % 2 ^ 32 + 1) % 2 ^ 32 =
      (handshake_data ip prt).length + 1 := by
    rw [e32] at h2 ⊢
    omega
  have hip : ip.length % 2 ^ 32 = ip.length := Nat.mod_eq_of_lt h1
  have hprt : prt / 256 % 256 = prt / 256 := Nat.mod_eq_of_lt (by omega)
  have hdata : handshake_data ip prt =
      encode_u32 760 ++ (encode_u32 ip.length ++ (ip ++ ([prt / 256, prt % 256] ++
        encode_u32 1))) := by
    unfold handshake_data put_str put_u16 put_vi
    rw [hip, hprt]
    simp only [List.nil_append, List.append_assoc]
  calc handshake_packet ip prt
      = encode_u32 ((handshake_data ip prt).length + 1) ++
          (encode_u32 0 ++ handshake_data ip prt) := by
        unfold handshake_packet build_packet put_vi
        rw [hL]
        simp only [List.nil_append, List.append_assoc]
    _ = encode_u32 ((handshake_data ip prt).length + 1) ++ encode_u32 0 ++ encode_u32 760 ++
          encode_u32 ip.length ++ ip ++ [prt / 256, prt % 256] ++ encode_u32 1 := by
        rw [hdata]
        simp [List.append_assoc]

/-- Witness for C6 at the host bytes of the string host and port 25565. -/
theorem handshake_packet_layout_witness :
    handshake_packet [104, 111, 115, 116] 25565 =
      encode_u32 ((handshake_data [104, 111, 115, 116] 25565).length + 1) ++ encode_u32 0 ++
        encode_u32 760 ++ encode_u32 ([104, 111, 115, 116] : List Nat).length ++
        [104, 111, 115, 116] ++ [25565 / 256, 25565 % 256] ++ encode_u32 1 :=
  handshake_packet_layout [104, 111, 115, 116] 25565 (by decide) (by decide) (by decide)

/-- C1. Behavior of the stripping loop on a well formed buffer of three valid
varint fields (values 0, 128, 0) followed by the payload byte 0x7B: the code
stops the cursor at offset 3, inside the header, so the stripped tail is not
the payload, while the algorithm the specification describes stops at offset
4, exactly the payload start. -/
theorem frame_strip_misaligned_on_wellformed :
    encode_u32 0 ++ encode_u32 128 ++ encode_u32 0 ++ [123] = [0, 128, 1, 0, 123] ∧
    strip_frames [0, 128, 1, 0, 123] = some 3 ∧
    List.drop 3 [0, 128, 1, 0, 123] ≠ [123] ∧
    strip_frames_spec [0, 128, 1, 0, 123] = some 4 ∧
    List.drop 4 [0, 128, 1, 0, 123] = [123] := by
  refine ⟨rfl, rfl, by decide, rfl, rfl⟩

/-- C2. Behavior of the stripping loop on truncated buffers: with only the
byte 0x80 (an unfinished first varint) or only the two header varints 0x01
0x00, the loop indexes past the buffer end, which in Rust is a panic (none in
this embedding); no FrameUnderrun error value exists in the code. -/
theorem frame_strip_panics_on_truncated :
    strip_frames [128] = none ∧ strip_frames [1, 0] = none := by
  exact ⟨rfl, rfl⟩

/-- C3 amended. Acceptance filter: a payload is accepted exactly when
players.max is 50, the favicon is present (its content, including emptiness,
is not examined), and version.protocol is 760; a rejected probe returns
silently and successfully with no file written. -/
theorem accept_filter_iff_and_silent_reject : ∀ (ip : List Char) (m : MOTD),
    (reject_filter m = false ↔
      (m.players.max = 50 ∧ m.favicon.isSome = true ∧ m.version.protocol = 760)) ∧
    (reject_filter m = true → validate_and_persist ip m = PersistOutcome.rejectedOk) := by
  intro ip m
  constructor
  · cases hf : m.favicon <;>
      simp [reject_filter, hf]
  · intro h
    simp [validate_and_persist, h]

/-- Witness for C3: the fixture rejected by the player cap filter ends the
probe silently with no file written. -/
theorem accept_filter_iff_witness :
    validate_and_persist [] motd_low_cap = PersistOutcome.rejectedOk :=
  (accept_filter_iff_and_silent_reject [] motd_low_cap).2 (by decide)

/-- C3 counterexample: a payload whose favicon is present but empty passes the
filter and proceeds to persistence, refuting the claim that acceptance
requires a non empty favicon. -/
theorem accept_filter_admits_empty_favicon :
    reject_filter motd_empty_favicon = false ∧
    motd_empty_favicon.favicon = some [] ∧
    validate_and_persist [] motd_empty_favicon ≠ PersistOutcome.rejectedOk := by
  refine ⟨rfl, rfl, by decide⟩

/-- The read loop appends every chunk read before the first stopping event
(zero byte read, timeout, or read error) to the accumulator. -/
theorem read_loop_append_chunks : ∀ (chunks : List (List Nat)) (t : ReadEvent)
    (rest : List ReadEvent) (acc : List Nat),
    (∀ c ∈ chunks, c ≠ []) →
    (t = ReadEvent.recvErr ∨ t = ReadEvent.timedOut ∨ t = ReadEvent.recvOk []) →
    read_loop (chunks.map ReadEvent.recvOk ++ t :: rest) acc = acc ++ chunks.flatten := by
  intro chunks
  induction chunks with
  | nil =>
    intro t rest acc _ ht
    rcases ht with h | h | h <;> subst h <;> simp [read_loop]
  | cons c cs ih =>
    intro t rest acc hne ht
    have hc : c ≠ [] := hne c (by simp)
    have hlen : ¬ c.length = 0 := by simpa [List.length_eq_zero] using hc
    simp only [List.map_cons, List.cons_append, read_loop, hlen, if_false, List.append_eq]
    rw [ih t rest (acc ++ c) (fun x hx => hne x (by simp [hx])) ht]
    simp [List.append_assoc]

/-- C7 amended. Bounded Response Reader termination: a zero byte read, an
idle timeout, and a transport error from the read all stop the loop in the
same way, keeping the accumulated bytes; the loop has no aborting path and
never discards its accumulation. -/
theorem read_loop_keeps_bytes_on_any_stop : ∀ (chunks : List (List Nat))
    (t : ReadEvent) (rest : List ReadEvent),
    (∀ c ∈ chunks, c ≠ []) →
    (t = ReadEvent.recvErr ∨ t = ReadEvent.timedOut ∨ t = ReadEvent.recvOk []) →
    read_phase (chunks.map ReadEvent.recvOk ++ t :: rest) = Except.ok chunks.flatten := by
  intro chunks t rest h1 h2
  simp [read_phase, read_loop_append_chunks chunks t rest [] h1 h2]

/-- Witness for C7: one successful read then a timeout keeps the bytes. -/
theorem read_loop_keeps_bytes_witness :
    read_phase [ReadEvent.recvOk [1, 2], ReadEvent.timedOut] = Except.ok [1, 2] :=
  read_loop_keeps_bytes_on_any_stop [[1, 2]] ReadEvent.timedOut []
    (by intro c hc; simp at hc; subst hc; simp) (Or.inr (Or.inl rfl))

/-- C7 counterexample: after one successful read, a transport error does not
abort the probe with ReadError and does not discard the accumulation; the
phase returns the accumulated bytes as a success. -/
theorem read_error_keeps_accumulated :
    read_phase [ReadEvent.recvOk [7], ReadEvent.recvErr] = Except.ok [7] ∧
    (Except.ok [7] : Except ProbeError (List Nat)) ≠ Except.error ProbeError.readErr := by
  exact ⟨rfl, by simp⟩

/-- C8. A probe failure is not isolated: because main unwraps every probe
result inside the joined futures, a run in which the probes fail panics and
the process does not exit zero, while an all successful run does. -/
theorem probe_failure_aborts_process :
    main_outcome [Except.error ProbeError.connectErr, Except.error ProbeError.connectErr] =
      ProcessExit.abortedPanic ∧
    ProcessExit.abortedPanic ≠ ProcessExit.exitZero ∧
    main_outcome [Except.ok (), Except.ok ()] = ProcessExit.exitZero := by
  refine ⟨rfl, by decide, rfl⟩

/-- C9 amended. Output filenames are a function of the host alone: two
endpoints receive the same JSON artifact path exactly when their hosts are
equal, so distinct hosts never collide but endpoints sharing a host always
do, whatever their ports. -/
theorem filename_depends_on_host_only : ∀ ep1 ep2 : List Char × Nat,
    scan_json_file ep1 = scan_json_file ep2 ↔ ep1.1 = ep2.1 := by
  intro ep1 ep2
  constructor
  · intro h
    simp only [scan_json_file, json_file_name] at h
    have h2 := List.append_cancel_right h
    exact List.append_cancel_left h2
  · intro h
    simp [scan_json_file, json_file_name, h]

/-- C9 counterexample: two distinct input endpoints, same host and different
ports, receive the same JSON artifact path. -/
theorem filename_collision_distinct_endpoints :
    (("1.2.3.4".toList, 25565) : List Char × Nat) ≠ ("1.2.3.4".toList, 25566) ∧
    scan_json_file ("1.2.3.4".toList, 25565) = scan_json_file ("1.2.3.4".toList, 25566) := by
  exact ⟨by decide, rfl⟩

/-- C10. An accepted payload whose favicon holds fewer than 22 bytes drives
perform_scan into the panicking slice favicon[22..] after the JSON artifact
has already been written: acceptance checks only favicon presence, never its
length. -/
theorem short_favicon_panics_after_json : ∀ (ip : List Char) (m : MOTD) (fav : List Nat),
    m.players.max = 50 → m.version.protocol = 760 → m.favicon = some fav →
    fav.length < 22 →
    validate_and_persist ip m =
      PersistOutcome.panicked [(json_file_name ip, FileData.jsonPretty m)] := by
  intro ip m fav h50 h760 hfav hlen
  have hrf : reject_filter m = false := by
    simp [reject_filter, h50, h760, hfav]
  have hn : ¬ 22 ≤ fav.length := by omega
  simp [validate_and_persist, hrf, hfav, hn]

/-- Witness for C10 at the three byte favicon fixture. -/
theorem short_favicon_panics_witness :
    validate_and_persist [] motd_short_favicon =
      PersistOutcome.panicked [(json_file_name [], FileData.jsonPretty motd_short_favicon)] :=
  short_favicon_panics_after_json [] motd_short_favicon [100, 97, 116] rfl rfl rfl (by decide)
